import Mathlib

/-!
Verification of the `dow` download/caching library against its specification.

The Python sources `src/dow/cached_download.py`, `src/dow/cli.py` and
`src/dow/_indent.py` are shallowly embedded below.  File-system state is an
association list of (path, content); the MD5 digest of a content string and
the network download are abstracted into an environment `Env` of pure
functions.  Terminal output is collected into a list of (stream, message)
pairs, file reads into a list of paths, and network fetches into a counter,
so that frame/effect claims are statable.  Exceptions become an explicit
`PyErr` sum returned through `Except`.
-/

namespace Dow

/-- Raised Python exceptions, as a sum type.  `assertionError` and
`valueError` carry the formatted message the source builds;
`fileNotFoundError` carries the path `open` failed on; `downloadError`
models any exception escaping `custom_download`; `typeError` models a
call-binding failure. -/
inductive PyErr where
  | valueError (msg : String)
  | assertionError (msg : String)
  | fileNotFoundError (path : String)
  | downloadError (url : String)
  | typeError (msg : String)
deriving DecidableEq, Repr

deriving instance DecidableEq for Except

/-- Output stream of a `print` call (`sys.stdout` default, or
`file=sys.stderr`). -/
inductive Fd where
  | stdout
  | stderr
deriving DecidableEq, Repr

/-- Abstracted ambient world: `md5` maps a file's full content to its hex
digest (the block-wise streaming of `calculate_md5sum` is observationally
the digest of the whole content); `download` maps a URL to the downloaded
bytes, `none` modelling any exception raised by `custom_download`. -/
structure Env where
  md5 : String → String
  download : String → Option String

/-- File-system state: `files` maps paths to contents (first binding wins);
`tempDirs` is the set of temporary directories currently present under the
cache root (`tempfile.mkdtemp` creates one, `shutil.rmtree` removes it). -/
structure FS where
  files : List (String × String)
  tempDirs : List String
deriving DecidableEq, Repr

def lookupF : List (String × String) → String → Option String
  | [], _ => none
  | (k, v) :: rest, p => if k = p then some v else lookupF rest p

/-- Write (create or overwrite) the file at `p`. -/
def setF (p c : String) (files : List (String × String)) : List (String × String) :=
  (p, c) :: files.filter (fun kv => kv.1 ≠ p)

/-- Remove the file at `p`. -/
def delF (p : String) (files : List (String × String)) : List (String × String) :=
  files.filter (fun kv => kv.1 ≠ p)

/-- Python `os.path.exists` restricted to the files the model tracks. -/
def fsExists (fs : FS) (p : String) : Bool :=
  (lookupF fs.files p).isSome

/-- The fixed cache root `osp.join(osp.expanduser("~"), ".custom_cache/gdown")`
from `cached_download.py`; the home directory is left symbolic. -/
def custom_cache_root : String := "~/.custom_cache/gdown"

/-- Function `calculate_md5sum(file_path, block_size)`: opens the file and digests it
block-wise.  Returns the digest (or the open failure) together with the
list of paths whose contents were accessed.  The `block_size` parameter
only tunes buffering and is dropped. -/
def calculate_md5sum (env : Env) (fs : FS) (file_path : String) :
    Except PyErr String × List String :=
  match lookupF fs.files file_path with
  | some content => (.ok (env.md5 content), [file_path])
  | none => (.error (.fileNotFoundError file_path), [file_path])

/-- The `AssertionError` message built at `cached_download.py:46-48`. -/
def mismatchMsg (actual expected : String) : String :=
  "MD5 mismatch:\nActual: " ++ actual ++ "\nExpected: " ++ expected

/-- Result of `validate_md5sum`: the returned value or raised error, the
messages printed, and the file paths read. -/
structure VResult where
  res : Except PyErr Bool
  printed : List (Fd × String)
  reads : List String
deriving Repr

/-- Function `validate_md5sum(file_path, expected_md5, silent, block_size)` from
`cached_download.py:33-48`.  The guard is
`isinstance(expected_md5, str) and len(expected_md5) == 32`; the type
test is vacuous here since the argument is a `String`. -/
def validate_md5sum (env : Env) (fs : FS) (file_path : String)
    (expected_md5 : String) (silent : Bool) : VResult :=
  if expected_md5.length = 32 then
    let msgs1 : List (Fd × String) :=
      if silent then [] else [(Fd.stdout, "Calculating MD5: " ++ file_path)]
    match calculate_md5sum env fs file_path with
    | (.error e, rs) => { res := .error e, printed := msgs1, reads := rs }
    | (.ok actual, rs) =>
      if actual = expected_md5 then
        { res := .ok true
          printed := msgs1 ++ (if silent then [] else [(Fd.stdout, "MD5 matches: " ++ file_path)])
          reads := rs }
      else
        { res := .error (.assertionError (mismatchMsg actual expected_md5))
          printed := msgs1
          reads := rs }
  else
    { res := .error (.valueError ("Expected MD5 must be 32 characters long: " ++ expected_md5))
      printed := []
      reads := [] }

/-- Result of `cached_custom_download`: the returned path or raised error,
the resulting file system, the terminal output, the file paths read for
digesting, and the number of network fetch attempts. -/
structure CResult where
  res : Except PyErr String
  fs : FS
  printed : List (Fd × String)
  reads : List String
  fetches : Nat
deriving Repr

/-- The `-SLASH-`/`-COLON-`/`-EQUAL-`/`-QUESTION-` chained replacement of
`cached_download.py:77-82`, on character lists.  `str.replace` with a
single-character pattern substitutes each occurrence of that character. -/
def replace1 (c : Char) (r : List Char) : List Char → List Char
  | [] => []
  | x :: xs => (if x = c then r else [x]) ++ replace1 c r xs

/-- The chain `url.replace("/","-SLASH-").replace(":","-COLON-").replace("=","-EQUAL-").replace("?","-QUESTION-")`. -/
def derive_chars (l : List Char) : List Char :=
  replace1 '?' "-QUESTION-".data
    (replace1 '=' "-EQUAL-".data
      (replace1 ':' "-COLON-".data
        (replace1 '/' "-SLASH-".data l)))

def derive_file_path (url : String) : String :=
  String.mk (derive_chars url.data)

/-- The `file_path` value after the `if file_path is None:` block of
`cached_custom_download`: the given path, or the derived one joined under
the cache root. -/
def resolve_file_path (url : String) : Option String → String
  | some p => p
  | none => custom_cache_root ++ "/" ++ derive_file_path url

/-- Python truthiness of the `expected_md5` argument (`None` or `""` are
falsy). -/
def isFalsyMd5 : Option String → Bool
  | none => true
  | some s => s.length = 0

/-- Length of the longest string in the list. -/
def maxLen (l : List String) : Nat :=
  l.foldr (fun s m => max s.length m) 0

/-- A name distinct from every member of `l` (strictly longer than all of
them), standing in for the fresh directory name `tempfile.mkdtemp`
produces. -/
def freshTempName (l : List String) : String :=
  String.mk (List.replicate (maxLen l + 1) 'T')

/-- The full path of the temporary directory `mkdtemp(dir=custom_cache_root)`
creates for this call. -/
def tempRootOf (fs : FS) : String :=
  custom_cache_root ++ "/" ++ freshTempName fs.tempDirs

/-- The progress message of `cached_download.py:108-114` (stderr, shown
unless `silent`; the `if file_path:` truthiness test picks the suffix). -/
def progressMsgs (file_path : String) (silent : Bool) : List (Fd × String) :=
  if silent then []
  else [(Fd.stderr,
    if file_path.length = 0 then "Cached Download in progress..."
    else "Cached Download in progress: " ++ file_path)]

/-- The `# Download the file` section of `cached_custom_download`
(`cached_download.py:98-130`, with `postprocess=None`): create a temporary
directory, print progress, run `custom_download` into it, move the result
into `file_path` under the lock; on any exception inside the `try`, remove
the temporary directory and re-raise.  After a successful move, a supplied
truthy `expected_md5` is re-validated (outside the `try`). -/
def downloadPhase (env : Env) (fs : FS) (url file_path : String)
    (expected_md5 : Option String) (silent : Bool) : CResult :=
  let temp_root := tempRootOf fs
  let fs1 : FS := { fs with tempDirs := temp_root :: fs.tempDirs }
  let temp_file_path := temp_root ++ "/dl"
  let progress : List (Fd × String) := progressMsgs file_path silent
  match env.download url with
  | none =>
      { res := .error (.downloadError url)
        fs := { fs1 with tempDirs := fs1.tempDirs.filter (fun d => d ≠ temp_root) }
        printed := progress
        reads := []
        fetches := 1 }
  | some content =>
      let fs2 : FS := { fs1 with files := setF temp_file_path content fs1.files }
      let fs3 : FS := { fs2 with files := setF file_path content (delF temp_file_path fs2.files) }
      match expected_md5 with
      | none =>
          { res := .ok file_path, fs := fs3, printed := progress, reads := [], fetches := 1 }
      | some m =>
          if m.length = 0 then
            { res := .ok file_path, fs := fs3, printed := progress, reads := [], fetches := 1 }
          else
            let v := validate_md5sum env fs3 file_path m silent
            match v.res with
            | .ok _ =>
                { res := .ok file_path, fs := fs3, printed := progress ++ v.printed
                  reads := v.reads, fetches := 1 }
            | .error e =>
                { res := .error e, fs := fs3, printed := progress ++ v.printed
                  reads := v.reads, fetches := 1 }

/-- Function `cached_custom_download(url, file_path, expected_md5, silent, postprocess=None)`
from `cached_download.py:51-130`.  The `if/elif` chain at lines 86-96:
an existing target with a falsy checksum is a cache hit; an existing
target with a truthy checksum is validated — success returns, an
`AssertionError` is printed to stderr (unconditionally) and the download
section runs, any other exception propagates; a missing target goes
straight to the download section. -/
def cached_custom_download (env : Env) (fs : FS) (url : String)
    (file_path_arg : Option String) (expected_md5 : Option String)
    (silent : Bool) : CResult :=
  let file_path := resolve_file_path url file_path_arg
  if fsExists fs file_path then
    if isFalsyMd5 expected_md5 then
      { res := .ok file_path
        fs := fs
        printed := if silent then [] else [(Fd.stdout, "File already exists: " ++ file_path)]
        reads := []
        fetches := 0 }
    else
      let v := validate_md5sum env fs file_path (expected_md5.getD "") silent
      match v.res with
      | .ok _ =>
          { res := .ok file_path, fs := fs, printed := v.printed, reads := v.reads, fetches := 0 }
      | .error (.assertionError msg) =>
          let d := downloadPhase env fs url file_path expected_md5 silent
          { d with printed := v.printed ++ [(Fd.stderr, msg)] ++ d.printed
                   reads := v.reads ++ d.reads }
      | .error e =>
          { res := .error e, fs := fs, printed := v.printed, reads := v.reads, fetches := 0 }
  else
    downloadPhase env fs url file_path expected_md5 silent

/-- Python `str.splitlines(True)` restricted to `\n` terminators: split into lines
keeping the line endings. -/
def splitKeepNl (acc : List Char) : List Char → List (List Char)
  | [] => if acc.isEmpty then [] else [acc.reverse]
  | c :: cs =>
      if c = '\n' then (acc.reverse ++ ['\n']) :: splitKeepNl [] cs
      else splitKeepNl (c :: acc) cs

/-- Function `indent(t, p)` from `_indent.py`: each line whose stripped form is
non-empty gets `p` prepended. -/
def indent (t p : String) : String :=
  String.join ((splitKeepNl [] t.data).map (fun lc =>
    let line := String.mk lc
    if line.trim.length = 0 then line else p ++ line))

/-- The parameter list of `indent` as defined in `_indent.py:2`. -/
def indentParamNames : List String := ["t", "p"]

/-- Python call binding: match positional and keyword arguments against a
parameter list; a keyword that names no parameter raises `TypeError`. -/
def bindCall (params : List String) (pos : List String)
    (kw : List (String × String)) : Except PyErr (List String) :=
  if params.length < pos.length then
    .error (.typeError "too many positional arguments")
  else if kw.any (fun a => ¬ params.contains a.1) then
    .error (.typeError "got an unexpected keyword argument")
  else if kw.any (fun a => (params.take pos.length).contains a.1) then
    .error (.typeError "got multiple values for argument")
  else
    match (params.drop pos.length).mapM (fun name => kw.lookup name) with
    | some rest => .ok (pos ++ rest)
    | none => .error (.typeError "missing a required argument")

/-- A call to `indent` with the given positional and keyword arguments,
resolved against its actual signature `(t, p)`. -/
def callIndent (pos : List String) (kw : List (String × String)) :
    Except PyErr String :=
  match bindCall indentParamNames pos kw with
  | .ok [t, p] => .ok (indent t p)
  | .ok _ => .error (.typeError "wrong number of arguments")
  | .error e => .error e

/-- The `except FolderContentsMaximumLimitError` handler of `cli.py:177-185`:
format the wrapped error text via `indent(..., prefix="\t")`, print the
diagnostic (with the `--remaining-ok` suggestion) to stderr, and
`sys.exit(1)`.  The argument is the already-wrapped text
`"\n".join(textwrap.wrap(str(e)))`; the result is the printed messages and
the exit status, or the exception escaping the handler itself. -/
def handleFolderCapacityError (wrapped : String) :
    Except PyErr (List (Fd × String) × Nat) :=
  match callIndent [wrapped] [("prefix", "\t")] with
  | .error e => .error e
  | .ok body =>
      .ok ([(Fd.stderr,
        "Failed to retrieve folder contents:\n\n" ++ body ++
        "\n\nYou can use the `--remaining-ok` option to ignore this error.")], 1)

/-! ## Specification-side definitions

These follow the spec's words, to be compared with the source-side
definitions above. -/

/-- The spec's per-character replacement table for deriving a cache file
name from a URL: `/` ↦ `-SLASH-`, `:` ↦ `-COLON-`, `=` ↦ `-EQUAL-`,
`?` ↦ `-QUESTION-`, any other character kept. -/
def markerOf (c : Char) : String :=
  if c = '/' then "-SLASH-"
  else if c = ':' then "-COLON-"
  else if c = '=' then "-EQUAL-"
  else if c = '?' then "-QUESTION-"
  else String.singleton c

/-- The spec's derived target path: each character of the URL replaced by
its marker, the result placed directly under the cache root. -/
def spec_derived_name (url : String) : String :=
  String.mk ((url.data.map (fun c => (markerOf c).data)).flatten)

/-- The spec's well-formedness condition on an expected checksum: exactly
32 hexadecimal characters. -/
def isHex32 (s : String) : Bool :=
  s.length = 32 && s.data.all (fun c =>
    c.isDigit || ('a' ≤ c && c ≤ 'f') || ('A' ≤ c && c ≤ 'F'))

/-! ## Helper lemmas -/

theorem replace1_append (c : Char) (r : List Char) (a b : List Char) :
    replace1 c r (a ++ b) = replace1 c r a ++ replace1 c r b := by
  induction a with
  | nil => simp [replace1]
  | cons x xs ih => simp [replace1, ih]

theorem derive_chars_append (a b : List Char) :
    derive_chars (a ++ b) = derive_chars a ++ derive_chars b := by
  simp [derive_chars, replace1_append]

theorem derive_chars_single (x : Char) :
    derive_chars [x] = (markerOf x).data := by
  by_cases h1 : x = '/'
  · subst h1; decide
  by_cases h2 : x = ':'
  · subst h2; decide
  by_cases h3 : x = '='
  · subst h3; decide
  by_cases h4 : x = '?'
  · subst h4; decide
  simp only [derive_chars, replace1, h1, h2, h3, h4, if_neg, List.append_nil,
    markerOf, if_false]
  rfl

theorem derive_chars_eq_join (l : List Char) :
    derive_chars l = (l.map (fun c => (markerOf c).data)).flatten := by
  induction l with
  | nil => rfl
  | cons x xs ih =>
      have h : x :: xs = [x] ++ xs := rfl
      rw [h, derive_chars_append, derive_chars_single, ih]
      rfl

/-! ## Concrete fixtures used by witnesses and counterexamples -/

/-- A world whose digest function is constant (a genuine 32-hex digest)
and whose downloads succeed. -/
def envT : Env :=
  { md5 := fun _ => "d41d8cd98f00b204e9800998ecf8427e"
    download := fun _ => some "data" }

/-- A world whose downloads always fail. -/
def envN : Env :=
  { md5 := fun _ => "d41d8cd98f00b204e9800998ecf8427e"
    download := fun _ => none }

/-- An empty file system. -/
def fsE : FS := { files := [], tempDirs := [] }

/-- A file system holding one file `f` with content `x`. -/
def fsF : FS := { files := [("f", "x")], tempDirs := [] }

/-- A 32-character string that is not hexadecimal. -/
def zs32 : String := String.mk (List.replicate 32 'z')

/-! ## Helper lemmas about the file-system model -/

theorem lookupF_setF_self (p c : String) (files : List (String × String)) :
    lookupF (setF p c files) p = some c := by
  simp [setF, lookupF]

theorem lookupF_filter_ne (p q : String) (files : List (String × String))
    (h : q ≠ p) :
    lookupF (files.filter (fun kv => kv.1 ≠ p)) q = lookupF files q := by
  induction files with
  | nil => rfl
  | cons kv rest ih =>
      cases kv with
      | mk k v =>
          by_cases hk : k = p
          · have hkq : ¬ k = q := fun hq => h (hk ▸ hq ▸ rfl)
            rw [List.filter_cons, if_neg (by simp [hk])]
            rw [show lookupF ((k, v) :: rest) q
                  = if k = q then some v else lookupF rest q from rfl]
            rw [if_neg hkq]
            exact ih
          · rw [List.filter_cons, if_pos (by simp [hk])]
            rw [show lookupF ((k, v) :: rest) q
                  = if k = q then some v else lookupF rest q from rfl]
            rw [show lookupF ((k, v) :: rest.filter (fun kv => kv.1 ≠ p)) q
                  = if k = q then some v
                    else lookupF (rest.filter (fun kv => kv.1 ≠ p)) q from rfl]
            by_cases hq : k = q
            · rw [if_pos hq, if_pos hq]
            · rw [if_neg hq, if_neg hq]; exact ih

theorem lookupF_setF_ne (p q c : String) (files : List (String × String))
    (h : q ≠ p) :
    lookupF (setF p c files) q = lookupF files q := by
  simp only [setF, lookupF]
  rw [if_neg (fun hpq => h hpq.symm)]
  exact lookupF_filter_ne p q files h

theorem lookupF_delF_self (p : String) (files : List (String × String)) :
    lookupF (delF p files) p = none := by
  induction files with
  | nil => rfl
  | cons kv rest ih =>
      by_cases hk : kv.1 = p
      · simp [delF, List.filter_cons, hk]
        simpa [delF] using ih
      · cases kv with
        | mk k v =>
            simp only at hk
            simp [delF, List.filter_cons, hk, lookupF]
            simpa [delF] using ih

theorem length_le_maxLen {s : String} {l : List String} (h : s ∈ l) :
    s.length ≤ maxLen l := by
  induction l with
  | nil => cases h
  | cons x xs ih =>
      rcases List.mem_cons.mp h with h1 | h2
      · subst h1; exact le_max_left _ _
      · exact le_trans (ih h2) (le_max_right _ _)

theorem freshTempName_length (l : List String) :
    (freshTempName l).length = maxLen l + 1 := by
  simp [freshTempName, String.length]

theorem tempRootOf_not_mem (fs : FS) : tempRootOf fs ∉ fs.tempDirs := by
  intro hmem
  have h1 : (tempRootOf fs).length ≤ maxLen fs.tempDirs := length_le_maxLen hmem
  have h2 : (tempRootOf fs).length =
      custom_cache_root.length + 1 + (maxLen fs.tempDirs + 1) := by
    simp only [tempRootOf, String.length_append, freshTempName_length]
    rfl
  omega

theorem filter_ne_cons (t : String) (l : List String) (h : t ∉ l) :
    (t :: l).filter (fun d => d ≠ t) = l := by
  rw [List.filter_cons]
  rw [if_neg (by simp)]
  exact List.filter_eq_self.mpr (fun a ha => decide_eq_true (fun heq => h (heq ▸ ha)))

/-- The file system after a successful download and publish: the temporary
directory was created (and never removed), the downloaded file was written
into it and then moved onto `file_path`. -/
def publishedFS (fs : FS) (file_path content : String) : FS :=
  { files := setF file_path content
      (delF (tempRootOf fs ++ "/dl") (setF (tempRootOf fs ++ "/dl") content fs.files))
    tempDirs := tempRootOf fs :: fs.tempDirs }

theorem downloadPhase_fail (env : Env) (fs : FS) (url fp : String)
    (em : Option String) (silent : Bool) (hdl : env.download url = none) :
    downloadPhase env fs url fp em silent =
      { res := .error (.downloadError url), fs := fs
        printed := progressMsgs fp silent, reads := [], fetches := 1 } := by
  have ht := filter_ne_cons (tempRootOf fs) fs.tempDirs (tempRootOf_not_mem fs)
  simp only [downloadPhase, hdl]
  rw [ht]

theorem downloadPhase_ok_none (env : Env) (fs : FS) (url fp : String)
    (silent : Bool) (c : String) (hdl : env.download url = some c) :
    downloadPhase env fs url fp none silent =
      { res := .ok fp, fs := publishedFS fs fp c
        printed := progressMsgs fp silent, reads := [], fetches := 1 } := by
  simp only [downloadPhase, hdl, publishedFS]

theorem downloadPhase_ok_some (env : Env) (fs : FS) (url fp : String)
    (silent : Bool) (c m : String) (hdl : env.download url = some c)
    (hm : ¬ m.length = 0) :
    downloadPhase env fs url fp (some m) silent =
      { res := match (validate_md5sum env (publishedFS fs fp c) fp m silent).res with
               | .ok _ => .ok fp
               | .error e => .error e
        fs := publishedFS fs fp c
        printed := progressMsgs fp silent ++
          (validate_md5sum env (publishedFS fs fp c) fp m silent).printed
        reads := (validate_md5sum env (publishedFS fs fp c) fp m silent).reads
        fetches := 1 } := by
  cases hv : (validate_md5sum env (publishedFS fs fp c) fp m silent).res with
  | ok b =>
      simp only [publishedFS] at hv
      simp only [downloadPhase, hdl, publishedFS, hm, if_false, ite_false, hv]
  | error e =>
      simp only [publishedFS] at hv
      simp only [downloadPhase, hdl, publishedFS, hm, if_false, ite_false, hv]

theorem validate_ok_eq (env : Env) (fs : FS) (p m : String) (silent : Bool)
    (co : String) (hm : m.length = 32) (hco : lookupF fs.files p = some co)
    (heq : env.md5 co = m) :
    validate_md5sum env fs p m silent =
      { res := .ok true
        printed := (if silent then [] else [(Fd.stdout, "Calculating MD5: " ++ p)]) ++
          (if silent then [] else [(Fd.stdout, "MD5 matches: " ++ p)])
        reads := [p] } := by
  simp [validate_md5sum, hm, calculate_md5sum, hco, heq]

theorem validate_mismatch_eq (env : Env) (fs : FS) (p m : String) (silent : Bool)
    (co : String) (hm : m.length = 32) (hco : lookupF fs.files p = some co)
    (hne : env.md5 co ≠ m) :
    validate_md5sum env fs p m silent =
      { res := .error (.assertionError (mismatchMsg (env.md5 co) m))
        printed := if silent then [] else [(Fd.stdout, "Calculating MD5: " ++ p)]
        reads := [p] } := by
  simp [validate_md5sum, hm, calculate_md5sum, hco, hne]

theorem validate_silent_printed (env : Env) (fs : FS) (p m : String) :
    (validate_md5sum env fs p m true).printed = [] := by
  simp only [validate_md5sum, calculate_md5sum]
  split
  · cases lookupF fs.files p with
    | none => simp
    | some co => dsimp only; split <;> simp
  · rfl

theorem validate_assertion_inv (env : Env) (fs : FS) (p m : String)
    (silent : Bool) (msg : String)
    (h : (validate_md5sum env fs p m silent).res = .error (.assertionError msg)) :
    ∃ a, msg = mismatchMsg a m := by
  simp only [validate_md5sum, calculate_md5sum] at h
  split at h
  · cases hco : lookupF fs.files p with
    | none => rw [hco] at h; simp at h
    | some co =>
        rw [hco] at h
        dsimp only at h
        split at h
        · simp at h
        · simp only [Except.error.injEq, PyErr.assertionError.injEq] at h
          exact ⟨env.md5 co, h.symm⟩
  · simp at h

theorem downloadPhase_silent_printed (env : Env) (fs : FS) (url fp : String)
    (em : Option String) :
    (downloadPhase env fs url fp em true).printed = [] := by
  simp only [downloadPhase, progressMsgs, if_true]
  cases env.download url with
  | none => rfl
  | some c =>
      cases em with
      | none => rfl
      | some m =>
          dsimp only
          split
          · rfl
          · split <;> simp [validate_silent_printed]

theorem downloadPhase_ok_some_empty (env : Env) (fs : FS) (url fp : String)
    (silent : Bool) (c m : String) (hdl : env.download url = some c)
    (hm : m.length = 0) :
    downloadPhase env fs url fp (some m) silent =
      { res := .ok fp, fs := publishedFS fs fp c
        printed := progressMsgs fp silent, reads := [], fetches := 1 } := by
  simp only [downloadPhase, hdl, publishedFS, hm, if_true]

theorem cached_hit (env : Env) (fs : FS) (url : String) (fp em : Option String)
    (silent : Bool) (hex : fsExists fs (resolve_file_path url fp) = true)
    (hfal : isFalsyMd5 em = true) :
    cached_custom_download env fs url fp em silent =
      { res := .ok (resolve_file_path url fp), fs := fs
        printed := if silent then []
          else [(Fd.stdout, "File already exists: " ++ resolve_file_path url fp)]
        reads := [], fetches := 0 } := by
  simp [cached_custom_download, hex, hfal]

theorem cached_miss (env : Env) (fs : FS) (url : String) (fp em : Option String)
    (silent : Bool) (hex : fsExists fs (resolve_file_path url fp) = false) :
    cached_custom_download env fs url fp em silent =
      downloadPhase env fs url (resolve_file_path url fp) em silent := by
  simp [cached_custom_download, hex]

theorem cached_exists_checked (env : Env) (fs : FS) (url : String)
    (fp em : Option String) (silent : Bool)
    (hex : fsExists fs (resolve_file_path url fp) = true)
    (hfal : isFalsyMd5 em = false) :
    cached_custom_download env fs url fp em silent =
      match (validate_md5sum env fs (resolve_file_path url fp) (em.getD "") silent).res with
      | .ok _ =>
          { res := .ok (resolve_file_path url fp), fs := fs
            printed := (validate_md5sum env fs (resolve_file_path url fp) (em.getD "") silent).printed
            reads := (validate_md5sum env fs (resolve_file_path url fp) (em.getD "") silent).reads
            fetches := 0 }
      | .error (.assertionError msg) =>
          { res := (downloadPhase env fs url (resolve_file_path url fp) em silent).res
            fs := (downloadPhase env fs url (resolve_file_path url fp) em silent).fs
            printed := (validate_md5sum env fs (resolve_file_path url fp) (em.getD "") silent).printed ++
              [(Fd.stderr, msg)] ++
              (downloadPhase env fs url (resolve_file_path url fp) em silent).printed
            reads := (validate_md5sum env fs (resolve_file_path url fp) (em.getD "") silent).reads ++
              (downloadPhase env fs url (resolve_file_path url fp) em silent).reads
            fetches := (downloadPhase env fs url (resolve_file_path url fp) em silent).fetches }
      | .error e =>
          { res := .error e, fs := fs
            printed := (validate_md5sum env fs (resolve_file_path url fp) (em.getD "") silent).printed
            reads := (validate_md5sum env fs (resolve_file_path url fp) (em.getD "") silent).reads
            fetches := 0 } := by
  simp only [cached_custom_download, hex, hfal, if_true, if_false, Bool.false_eq_true, ite_false]

/-- Both digests are substrings of the mismatch message. -/
theorem mismatchMsg_carries_both (a e : String) :
    a.data <:+: (mismatchMsg a e).data ∧ e.data <:+: (mismatchMsg a e).data := by
  constructor
  · exact ⟨"MD5 mismatch:\nActual: ".data, ("\nExpected: " ++ e).data, by
      simp [mismatchMsg, String.data_append, List.append_assoc]⟩
  · exact ⟨("MD5 mismatch:\nActual: " ++ a ++ "\nExpected: ").data, [], by
      simp [mismatchMsg, String.data_append, List.append_assoc]⟩

/-! ## Claims -/

/-- C6: when no file path is supplied, `cached_custom_download` derives the
target deterministically from the URL by replacing each `/` with `-SLASH-`,
`:` with `-COLON-`, `=` with `-EQUAL-` and `?` with `-QUESTION-`, and
places the result directly under the fixed cache root: the source's chained
replacement (`resolve_file_path url none`) agrees with the spec's
per-character mapping on every URL. -/
theorem c6_derived_path (url : String) :
    resolve_file_path url none = custom_cache_root ++ "/" ++ spec_derived_name url := by
  rw [show resolve_file_path url none
        = custom_cache_root ++ "/" ++ derive_file_path url from rfl]
  rw [derive_file_path, spec_derived_name, derive_chars_eq_join]

/-- C3 (amended): `validate_md5sum` raises `ValueError` before any file
I/O (no reads, no output) whenever the expected checksum is not exactly 32
characters long; hexness of the characters is NOT checked.  In particular
`verify(path, "abc")` raises before any file access. -/
theorem c3_length_check_before_io (env : Env) (fs : FS) (p expected : String)
    (silent : Bool) (h : expected.length ≠ 32) :
    (validate_md5sum env fs p expected silent).res =
      .error (.valueError ("Expected MD5 must be 32 characters long: " ++ expected)) ∧
    (validate_md5sum env fs p expected silent).reads = [] ∧
    (validate_md5sum env fs p expected silent).printed = [] := by
  simp [validate_md5sum, h]

/-- C3 (counterexample): a 32-character string of `z`'s is not 32
hexadecimal characters, yet `validate_md5sum` accepts it past the format
guard, reads the file (I/O happens), and fails with a digest-mismatch
`AssertionError` rather than an input-validation error — contradicting the
claim that any non-32-hex checksum is rejected before I/O. -/
theorem c3_counterexample :
    isHex32 zs32 = false ∧
    (validate_md5sum envT fsF "f" zs32 false).reads = ["f"] ∧
    (validate_md5sum envT fsF "f" zs32 false).res =
      .error (.assertionError (mismatchMsg "d41d8cd98f00b204e9800998ecf8427e" zs32)) := by
  refine ⟨by decide, ?_, ?_⟩ <;> rfl

/-- Witness for C3: the amended theorem applied to `"abc"`. -/
theorem c3_witness :
    "abc".length ≠ 32 ∧
    ((validate_md5sum envT fsF "f" "abc" false).res =
      .error (.valueError ("Expected MD5 must be 32 characters long: " ++ "abc")) ∧
    (validate_md5sum envT fsF "f" "abc" false).reads = [] ∧
    (validate_md5sum envT fsF "f" "abc" false).printed = []) :=
  ⟨by decide, c3_length_check_before_io envT fsF "f" "abc" false (by decide)⟩

/-- C5: for a file whose true digest is `D = md5(content)`,
`validate_md5sum path D` succeeds, and for every well-formed `D' ≠ D` it
raises an `AssertionError` whose message carries both the actual and the
expected digests. -/
theorem c5_verify_correct (env : Env) (fs : FS) (p co D' : String)
    (silent : Bool) (hco : lookupF fs.files p = some co)
    (hlen : (env.md5 co).length = 32) :
    (validate_md5sum env fs p (env.md5 co) silent).res = .ok true ∧
    (D'.length = 32 → D' ≠ env.md5 co →
      (validate_md5sum env fs p D' silent).res =
        .error (.assertionError (mismatchMsg (env.md5 co) D')) ∧
      (env.md5 co).data <:+: (mismatchMsg (env.md5 co) D').data ∧
      D'.data <:+: (mismatchMsg (env.md5 co) D').data) := by
  constructor
  · rw [validate_ok_eq env fs p (env.md5 co) silent co hlen hco rfl]
  · intro h32 hne
    refine ⟨?_, (mismatchMsg_carries_both (env.md5 co) D').1,
      (mismatchMsg_carries_both (env.md5 co) D').2⟩
    rw [validate_mismatch_eq env fs p D' silent co h32 hco (fun he => hne he.symm)]

/-- Witness for C5: the file `f` with constant digest; a mismatching
well-formed digest is rejected with both digests reported. -/
theorem c5_witness :
    lookupF fsF.files "f" = some "x" ∧
    (envT.md5 "x").length = 32 ∧
    (validate_md5sum envT fsF "f" (envT.md5 "x") true).res = .ok true ∧
    (validate_md5sum envT fsF "f" zs32 true).res =
      .error (.assertionError (mismatchMsg (envT.md5 "x") zs32)) :=
  ⟨rfl, by decide,
    (c5_verify_correct envT fsF "f" "x" zs32 true rfl (by decide)).1,
    ((c5_verify_correct envT fsF "f" "x" zs32 true rfl (by decide)).2
      (by decide) (by decide)).1⟩

/-- C10: an empty string supplied as the expected checksum is falsy, so an
existing target is returned immediately as a cache hit: no fetch, no read
(hence neither the 32-character format check nor digest verification
runs), and the file system is untouched. -/
theorem c10_empty_checksum_cache_hit (env : Env) (fs : FS) (url : String)
    (fp : Option String) (silent : Bool)
    (h : fsExists fs (resolve_file_path url fp) = true) :
    (cached_custom_download env fs url fp (some "") silent).res =
      .ok (resolve_file_path url fp) ∧
    (cached_custom_download env fs url fp (some "") silent).fetches = 0 ∧
    (cached_custom_download env fs url fp (some "") silent).reads = [] ∧
    (cached_custom_download env fs url fp (some "") silent).fs = fs := by
  simp [cached_custom_download, h, isFalsyMd5]

/-- C1: with no checksum, an existing target is returned immediately with
no fetch and no verification; consequently two calls with the same URL
(and a download that succeeds) both return the derived path, the second is
a pure cache hit (no fetch, no read, file system untouched), and starting
from a missing target exactly one fetch happens across the two calls. -/
theorem c1_cached_download_idempotent (env : Env) (fs : FS) (url : String)
    (s1 s2 : Bool) (c : String) (hdl : env.download url = some c) :
    (cached_custom_download env fs url none none s1).res =
      .ok (resolve_file_path url none) ∧
    (cached_custom_download env (cached_custom_download env fs url none none s1).fs
       url none none s2).res = .ok (resolve_file_path url none) ∧
    (cached_custom_download env (cached_custom_download env fs url none none s1).fs
       url none none s2).fetches = 0 ∧
    (cached_custom_download env (cached_custom_download env fs url none none s1).fs
       url none none s2).reads = [] ∧
    (cached_custom_download env (cached_custom_download env fs url none none s1).fs
       url none none s2).fs = (cached_custom_download env fs url none none s1).fs ∧
    (fsExists fs (resolve_file_path url none) = true →
      (cached_custom_download env fs url none none s1).fetches = 0 ∧
      (cached_custom_download env fs url none none s1).reads = [] ∧
      (cached_custom_download env fs url none none s1).fs = fs) ∧
    (fsExists fs (resolve_file_path url none) = false →
      (cached_custom_download env fs url none none s1).fetches = 1) := by
  cases hex : fsExists fs (resolve_file_path url none) with
  | true =>
      rw [cached_hit env fs url none none s1 hex rfl]
      dsimp only
      rw [cached_hit env fs url none none s2 hex rfl]
      simp [hex]
  | false =>
      rw [cached_miss env fs url none none s1 hex]
      rw [downloadPhase_ok_none env fs url (resolve_file_path url none) s1 c hdl]
      have hex2 : fsExists (publishedFS fs (resolve_file_path url none) c)
          (resolve_file_path url none) = true := by
        simp [fsExists, publishedFS, lookupF_setF_self]
      dsimp only
      rw [cached_hit env (publishedFS fs (resolve_file_path url none) c)
            url none none s2 hex2 rfl]
      simp [hex]

/-- Witness for C1: starting from an empty file system, a succeeding
download; the first call fetches once, the second is a fetch-free hit. -/
theorem c1_witness :
    envT.download "u" = some "data" ∧
    (cached_custom_download envT fsE "u" none none true).res =
      .ok (resolve_file_path "u" none) ∧
    (cached_custom_download envT (cached_custom_download envT fsE "u" none none true).fs
       "u" none none true).fetches = 0 ∧
    (cached_custom_download envT fsE "u" none none true).fetches = 1 := by
  have h := c1_cached_download_idempotent envT fsE "u" true true "data" rfl
  exact ⟨rfl, h.1, h.2.2.1, h.2.2.2.2.2.2 (by decide)⟩

/-- C2: if `custom_download` fails (any failure inside the `try`, before
the publish completes), `cached_custom_download` propagates an error and
leaves the file system exactly as before: the temporary directory it
created is gone and no file changed.  The hypothesis `fetches = 1` states
that the call reached the download step. -/
theorem c2_failure_cleans_temp (env : Env) (fs : FS) (url : String)
    (fp em : Option String) (silent : Bool)
    (hdl : env.download url = none)
    (hrun : (cached_custom_download env fs url fp em silent).fetches = 1) :
    (∃ e, (cached_custom_download env fs url fp em silent).res = .error e) ∧
    (cached_custom_download env fs url fp em silent).fs = fs := by
  cases hex : fsExists fs (resolve_file_path url fp) with
  | false =>
      rw [cached_miss env fs url fp em silent hex,
          downloadPhase_fail env fs url (resolve_file_path url fp) em silent hdl]
      exact ⟨⟨PyErr.downloadError url, rfl⟩, rfl⟩
  | true =>
      cases hfal : isFalsyMd5 em with
      | true =>
          rw [cached_hit env fs url fp em silent hex hfal] at hrun
          simp at hrun
      | false =>
          rw [cached_exists_checked env fs url fp em silent hex hfal] at hrun ⊢
          cases hv : (validate_md5sum env fs (resolve_file_path url fp)
              (em.getD "") silent).res with
          | ok b => rw [hv] at hrun; simp at hrun
          | error e =>
              cases e with
              | assertionError msg =>
                  rw [downloadPhase_fail env fs url (resolve_file_path url fp) em silent hdl]
                  exact ⟨⟨PyErr.downloadError url, rfl⟩, rfl⟩
              | valueError m2 => rw [hv] at hrun; simp at hrun
              | fileNotFoundError p2 => rw [hv] at hrun; simp at hrun
              | downloadError u2 => rw [hv] at hrun; simp at hrun
              | typeError m2 => rw [hv] at hrun; simp at hrun

/-- Witness for C2: empty file system, failing download: the call fetches
once, errors, and the file system (including `tempDirs`) is unchanged. -/
theorem c2_witness :
    envN.download "u" = none ∧
    (cached_custom_download envN fsE "u" none none true).fetches = 1 ∧
    ((∃ e, (cached_custom_download envN fsE "u" none none true).res = .error e) ∧
      (cached_custom_download envN fsE "u" none none true).fs = fsE) := by
  refine ⟨rfl, by decide, ?_⟩
  exact c2_failure_cleans_temp envN fsE "u" none none true rfl (by decide)

/-- C9: on a successful fresh download (`fetches = 1`, result `ok`), the
temporary directory created under the cache root is still present
afterwards — `tempDirs` grew by exactly the new directory — and it is
empty: the downloaded file was moved out of it. -/
theorem c9_temp_dir_survives (env : Env) (fs : FS) (url : String)
    (fp em : Option String) (silent : Bool) (q : String)
    (hf : (cached_custom_download env fs url fp em silent).fetches = 1)
    (hr : (cached_custom_download env fs url fp em silent).res = .ok q) :
    (cached_custom_download env fs url fp em silent).fs.tempDirs =
      tempRootOf fs :: fs.tempDirs ∧
    (resolve_file_path url fp ≠ tempRootOf fs ++ "/dl" →
      lookupF (cached_custom_download env fs url fp em silent).fs.files
        (tempRootOf fs ++ "/dl") = none) := by
  have hfiles : ∀ c : String, resolve_file_path url fp ≠ tempRootOf fs ++ "/dl" →
      lookupF (publishedFS fs (resolve_file_path url fp) c).files
        (tempRootOf fs ++ "/dl") = none := by
    intro c hne
    simp only [publishedFS]
    rw [lookupF_setF_ne (resolve_file_path url fp) (tempRootOf fs ++ "/dl") c _
          (fun hh => hne hh.symm)]
    exact lookupF_delF_self _ _
  cases hex : fsExists fs (resolve_file_path url fp) with
  | false =>
      rw [cached_miss env fs url fp em silent hex] at hf hr ⊢
      cases hdl : env.download url with
      | none =>
          rw [downloadPhase_fail env fs url (resolve_file_path url fp) em silent hdl] at hr
          simp at hr
      | some c =>
          cases em with
          | none =>
              rw [downloadPhase_ok_none env fs url (resolve_file_path url fp) silent c hdl]
              exact ⟨rfl, hfiles c⟩
          | some m =>
              by_cases hm0 : m.length = 0
              · rw [downloadPhase_ok_some_empty env fs url (resolve_file_path url fp)
                      silent c m hdl hm0]
                exact ⟨rfl, hfiles c⟩
              · rw [downloadPhase_ok_some env fs url (resolve_file_path url fp)
                      silent c m hdl hm0]
                exact ⟨rfl, hfiles c⟩
  | true =>
      cases hfal : isFalsyMd5 em with
      | true =>
          rw [cached_hit env fs url fp em silent hex hfal] at hf
          simp at hf
      | false =>
          rw [cached_exists_checked env fs url fp em silent hex hfal] at hf hr ⊢
          cases hv : (validate_md5sum env fs (resolve_file_path url fp)
              (em.getD "") silent).res with
          | ok b => rw [hv] at hf; simp at hf
          | error e =>
              cases e with
              | assertionError msg =>
                  cases hdl : env.download url with
                  | none =>
                      rw [hv, downloadPhase_fail env fs url (resolve_file_path url fp)
                            em silent hdl] at hr
                      simp at hr
                  | some c =>
                      cases em with
                      | none => simp [isFalsyMd5] at hfal
                      | some m =>
                          have hm0 : ¬ m.length = 0 := by
                            simpa [isFalsyMd5] using hfal
                          rw [downloadPhase_ok_some env fs url (resolve_file_path url fp)
                                silent c m hdl hm0]
                          exact ⟨rfl, hfiles c⟩
              | valueError m2 => rw [hv] at hf; simp at hf
              | fileNotFoundError p2 => rw [hv] at hf; simp at hf
              | downloadError u2 => rw [hv] at hf; simp at hf
              | typeError m2 => rw [hv] at hf; simp at hf

/-- Witness for C9: a successful fresh download into an empty cache leaves
the new temporary directory behind, empty. -/
theorem c9_witness :
    (cached_custom_download envT fsE "u" none none true).fetches = 1 ∧
    (cached_custom_download envT fsE "u" none none true).res =
      .ok (resolve_file_path "u" none) ∧
    ((cached_custom_download envT fsE "u" none none true).fs.tempDirs =
      tempRootOf fsE :: fsE.tempDirs ∧
    (resolve_file_path "u" none ≠ tempRootOf fsE ++ "/dl" →
      lookupF (cached_custom_download envT fsE "u" none none true).fs.files
        (tempRootOf fsE ++ "/dl") = none)) := by
  refine ⟨by decide, by decide, ?_⟩
  exact c9_temp_dir_survives envT fsE "u" none none true
    (resolve_file_path "u" none) (by decide) (by decide)

/-- C4: integrity handling is asymmetric.  (a) If the target exists with a
digest that mismatches the supplied 32-character checksum, a non-fatal
warning carrying the mismatch message is printed and the file is
re-downloaded, overwriting the target.  (b) If the target did not exist
and the freshly downloaded content's digest mismatches the checksum,
`cached_custom_download` raises the `AssertionError`. -/
theorem c4_asymmetric_integrity :
    (∀ (env : Env) (fs : FS) (url : String) (fp : Option String) (silent : Bool)
       (m co c : String),
      lookupF fs.files (resolve_file_path url fp) = some co →
      m.length = 32 → env.md5 co ≠ m → env.download url = some c →
      (Fd.stderr, mismatchMsg (env.md5 co) m) ∈
        (cached_custom_download env fs url fp (some m) silent).printed ∧
      (cached_custom_download env fs url fp (some m) silent).fetches = 1 ∧
      lookupF (cached_custom_download env fs url fp (some m) silent).fs.files
        (resolve_file_path url fp) = some c) ∧
    (∀ (env : Env) (fs : FS) (url : String) (fp : Option String) (silent : Bool)
       (m c : String),
      fsExists fs (resolve_file_path url fp) = false →
      m.length = 32 → env.download url = some c → env.md5 c ≠ m →
      (cached_custom_download env fs url fp (some m) silent).res =
        .error (.assertionError (mismatchMsg (env.md5 c) m))) := by
  constructor
  · intro env fs url fp silent m co c hco h32 hne hdl
    have hex : fsExists fs (resolve_file_path url fp) = true := by
      simp [fsExists, hco]
    have hfal : isFalsyMd5 (some m) = false := by
      simp [isFalsyMd5]; omega
    have hm0 : ¬ m.length = 0 := by omega
    have hv := validate_mismatch_eq env fs (resolve_file_path url fp) m silent co h32 hco hne
    have hvres : (validate_md5sum env fs (resolve_file_path url fp)
        ((some m).getD "") silent).res =
        .error (.assertionError (mismatchMsg (env.md5 co) m)) := by
      rw [show (some m).getD "" = m from rfl, hv]
    rw [cached_exists_checked env fs url fp (some m) silent hex hfal, hvres]
    rw [downloadPhase_ok_some env fs url (resolve_file_path url fp) silent c m hdl hm0]
    refine ⟨by simp, rfl, ?_⟩
    exact lookupF_setF_self _ _ _
  · intro env fs url fp silent m c hex h32 hdl hne
    have hm0 : ¬ m.length = 0 := by omega
    have hco : lookupF (publishedFS fs (resolve_file_path url fp) c).files
        (resolve_file_path url fp) = some c := lookupF_setF_self _ _ _
    have hv := validate_mismatch_eq env (publishedFS fs (resolve_file_path url fp) c)
      (resolve_file_path url fp) m silent c h32 hco hne
    rw [cached_miss env fs url fp (some m) silent hex]
    rw [downloadPhase_ok_some env fs url (resolve_file_path url fp) silent c m hdl hm0]
    simp [hv]

/-- Witness for C4: tolerant branch — existing file `f` with mismatching
checksum is warned about and overwritten; strict branch — a fresh download
whose digest mismatches raises. -/
theorem c4_witness :
    ((Fd.stderr, mismatchMsg (envT.md5 "x") zs32) ∈
      (cached_custom_download envT fsF "u" (some "f") (some zs32) true).printed ∧
     (cached_custom_download envT fsF "u" (some "f") (some zs32) true).fetches = 1 ∧
     lookupF (cached_custom_download envT fsF "u" (some "f") (some zs32) true).fs.files
       (resolve_file_path "u" (some "f")) = some "data") ∧
    (cached_custom_download envT fsE "u" (some "g") (some zs32) true).res =
      .error (.assertionError (mismatchMsg (envT.md5 "data") zs32)) := by
  constructor
  · exact c4_asymmetric_integrity.1 envT fsF "u" (some "f") true zs32 "x" "data"
      rfl (by decide) (by decide) rfl
  · exact c4_asymmetric_integrity.2 envT fsE "u" (some "g") true zs32 "data"
      (by decide) (by decide) rfl (by decide)

/-- C7 (counterexample): the core does print.  With default verbosity, a
cache hit prints `File already exists: ...` to stdout, so the claim that
`cachedDownload` produces no terminal output is false at this input. -/
theorem c7_counterexample :
    (cached_custom_download envT fsF "u" (some "f") none false).printed ≠ [] := by
  decide

/-- C7 (amended): the core prints informational messages unless `silent`
is set; with `silent = true` the only output `cached_custom_download` can
produce is the checksum-mismatch warning for a pre-existing file (printed
to stderr regardless of `silent`), and `validate_md5sum` prints nothing;
failures are surfaced as raised errors. -/
theorem c7_silent_core_output (env : Env) (fs : FS) (url : String)
    (fp em : Option String) :
    ((cached_custom_download env fs url fp em true).printed = [] ∨
     ∃ a e, (cached_custom_download env fs url fp em true).printed =
       [(Fd.stderr, mismatchMsg a e)]) ∧
    (∀ p m, (validate_md5sum env fs p m true).printed = []) := by
  refine ⟨?_, fun p m => validate_silent_printed env fs p m⟩
  cases hex : fsExists fs (resolve_file_path url fp) with
  | false =>
      left
      rw [cached_miss env fs url fp em true hex]
      exact downloadPhase_silent_printed env fs url _ em
  | true =>
      cases hfal : isFalsyMd5 em with
      | true =>
          left
          rw [cached_hit env fs url fp em true hex hfal]
          rfl
      | false =>
          rw [cached_exists_checked env fs url fp em true hex hfal]
          cases hv : (validate_md5sum env fs (resolve_file_path url fp)
              (em.getD "") true).res with
          | ok b => left; exact validate_silent_printed env fs _ _
          | error e =>
              cases e with
              | assertionError msg =>
                  obtain ⟨a, ha⟩ := validate_assertion_inv env fs
                    (resolve_file_path url fp) (em.getD "") true msg hv
                  right
                  exact ⟨a, em.getD "", by
                    simp [validate_silent_printed, downloadPhase_silent_printed, ha]⟩
              | valueError m2 => left; exact validate_silent_printed env fs _ _
              | fileNotFoundError p2 => left; exact validate_silent_printed env fs _ _
              | downloadError u2 => left; exact validate_silent_printed env fs _ _
              | typeError m2 => left; exact validate_silent_printed env fs _ _

/-- C8: the claim fails on the code.  `cli.py` calls
`indent(..., prefix="\t")` but `_indent.py` defines `indent(t, p)`, so
inside the `except FolderContentsMaximumLimitError` handler the formatting
call raises `TypeError` for every error text: the human-readable
diagnostic with the `--remaining-ok` suggestion is never printed and the
handler's own `sys.exit(1)` is never reached. -/
theorem c8_capacity_handler_raises (wrapped : String) :
    handleFolderCapacityError wrapped =
      .error (.typeError "got an unexpected keyword argument") := rfl

/-- Witness for C10: the file `f` exists, the checksum is `""`. -/
theorem c10_witness :
    fsExists fsF (resolve_file_path "u" (some "f")) = true ∧
    ((cached_custom_download envT fsF "u" (some "f") (some "") true).res =
      .ok (resolve_file_path "u" (some "f")) ∧
    (cached_custom_download envT fsF "u" (some "f") (some "") true).fetches = 0 ∧
    (cached_custom_download envT fsF "u" (some "f") (some "") true).reads = [] ∧
    (cached_custom_download envT fsF "u" (some "f") (some "") true).fs = fsF) := by
  refine ⟨by decide, ?_⟩
  have h := c10_empty_checksum_cache_hit envT fsF "u" (some "f") true (by decide)
  exact ⟨h.1, h.2.1, h.2.2.1, h.2.2.2⟩

end Dow
